import Mathlib

/-!
Shallow embedding of the brivet camera/capture service
(`app/config.py`, `app/capture.py`, `app/camera.py`,
`app/routes/live_detect.py`), together with proofs of the
behavioural properties stated in the specification.

Python floats for wall-clock times and confidence thresholds are
modelled as rationals; Python ints as integers.  Fallible collaborator
calls (camera hardware, the detection pipeline, the database) are
modelled as `Except` values supplied through an environment record, so
that every exception path of the source is an explicit branch here.
-/

namespace Brivet

/-! ### Configuration constants (`app/config.py`) -/

def MIN_CAPTURE_INTERVAL : ℤ := 45

def DEFAULT_CONFIDENCE : ℚ := 0.25

def DEFAULT_SLICES : ℤ := 2

def CAPTURE_WIDTH : ℤ := 3280

def CAPTURE_HEIGHT : ℤ := 2464

def RESOLUTION_PRESETS : List (String × ℤ × ℤ) :=
  [("640x480", (640, 480)),
   ("1280x720", (1280, 720)),
   ("1280x1280", (1280, 1280)),
   ("1920x1080", (1920, 1080))]

def DEFAULT_LIVE_RESOLUTION : String := "1280x1280"

/-! ### Errors

`StepExc` models exceptions raised by the collaborators invoked from
`CaptureManager._do_capture` (camera, detector, database); `CapError`
models the errors the capture manager itself raises (`RuntimeError` /
`ValueError` in the source), tagged with the specification's taxonomy.
-/

inductive StepExc where
  | cameraError (msg : String)
  | detectError (msg : String)
  | persistError (msg : String)
deriving DecidableEq

inductive CapError where
  | cooldownActive (remaining : ℚ)
  | modeConflict
  | invalidArgument (msg : String)
  | alreadyRunning
  | stepFailed (e : StepExc)
deriving DecidableEq

/-! ### Capture data (`run_detection` result dict, DB-augmented result) -/

structure DetectionDict where
  object_count : ℤ
  image_filename : String
  duration_ms : ℤ
deriving DecidableEq

structure CaptureResult where
  object_count : ℤ
  image_filename : String
  duration_ms : ℤ
  id : ℤ
  timestamp : String
deriving DecidableEq

/-! ### Capture manager state (`CaptureManager.__init__`) -/

structure CaptureState where
  last_capture_time : ℚ
  mode : String
  confidence : ℚ
  slices : ℤ
  auto_running : Bool
  auto_interval : ℤ
  auto_max_captures : ℤ
  auto_captures_done : ℤ
  auto_next_capture_time : ℚ
  last_result : Option CaptureResult
  is_processing : Bool
deriving DecidableEq

def initialCaptureState : CaptureState :=
  { last_capture_time := 0
    mode := "manual"
    confidence := DEFAULT_CONFIDENCE
    slices := DEFAULT_SLICES
    auto_running := false
    auto_interval := 0
    auto_max_captures := 0
    auto_captures_done := 0
    auto_next_capture_time := 0
    last_result := none
    is_processing := false }

/-! ### Settings setters (`CaptureManager.confidence` / `.slices`) -/

def set_confidence (s : CaptureState) (value : ℚ) : CaptureState :=
  { s with confidence := max 0.01 (min 1.0 value) }

def set_slices (s : CaptureState) (value : ℤ) : CaptureState :=
  { s with slices := max 1 (min 8 value) }

/-! ### Core capture sequence (`CaptureManager._do_capture`)

The environment supplies the outcome of each collaborator call made
during one execution of `_do_capture`: the camera still capture, the
sliced detection (a function of the raw path and the settings read at
the moment of use), and the database persist (returning the new row id
and its ISO timestamp), plus the wall-clock completion time.
-/

structure CaptureEnv where
  capture_high_res : Except StepExc String
  run_detection : String → ℚ → ℤ → Except StepExc DetectionDict
  persist : DetectionDict → ℚ → ℤ → Except StepExc (ℤ × String)
  completion_time : ℚ

/-- The state under which the capture→detect→persist body runs:
`self._is_processing = True` is the first statement of `_do_capture`. -/
def do_capture_processing_state (s : CaptureState) : CaptureState :=
  { s with is_processing := true }

/-- Model of `CaptureManager._do_capture`, with the `try`/`finally` flattened:
every exception branch and the success branch both end with
`is_processing := false`, and only the success branch advances
`last_capture_time` and `last_result`. -/
def do_capture (s : CaptureState) (env : CaptureEnv) :
    Except CapError CaptureResult × CaptureState :=
  let sProc := do_capture_processing_state s
  match env.capture_high_res with
  | .error e => (.error (.stepFailed e), { sProc with is_processing := false })
  | .ok raw_path =>
    match env.run_detection raw_path sProc.confidence sProc.slices with
    | .error e => (.error (.stepFailed e), { sProc with is_processing := false })
    | .ok det =>
      match env.persist det sProc.confidence sProc.slices with
      | .error e => (.error (.stepFailed e), { sProc with is_processing := false })
      | .ok (rid, ts) =>
        let result : CaptureResult :=
          { object_count := det.object_count
            image_filename := det.image_filename
            duration_ms := det.duration_ms
            id := rid
            timestamp := ts }
        (.ok result,
         { sProc with
             last_capture_time := env.completion_time
             last_result := some result
             is_processing := false })

/-! ### Manual capture (`CaptureManager.manual_capture`) -/

def manual_capture (s : CaptureState) (now : ℚ) (env : CaptureEnv) :
    Except CapError CaptureResult × CaptureState :=
  if s.mode = "automated" ∧ s.auto_running = true then
    (.error .modeConflict, s)
  else
    if now - s.last_capture_time < (MIN_CAPTURE_INTERVAL : ℚ) then
      (.error (.cooldownActive
        ((MIN_CAPTURE_INTERVAL : ℚ) - (now - s.last_capture_time))), s)
    else
      do_capture s env

/-! ### Automated capture (`CaptureManager.start_automated` and
`CaptureManager._automated_loop`) -/

def start_automated (s : CaptureState) (interval max_captures : ℤ) :
    Except CapError Unit × CaptureState :=
  if interval < MIN_CAPTURE_INTERVAL then
    (.error (.invalidArgument "Interval must be at least 45 seconds."), s)
  else if max_captures < 1 then
    (.error (.invalidArgument "Maximum captures must be at least 1."), s)
  else if s.auto_running = true then
    (.error .alreadyRunning, s)
  else
    (.ok (),
     { s with
         mode := "automated"
         auto_interval := interval
         auto_max_captures := max_captures
         auto_captures_done := 0
         auto_running := true })

/-- One loop iteration's inputs: the wall clock at the top of the
iteration and the collaborator outcomes for its `_do_capture` call. -/
structure AutoIterEnv where
  now : ℚ
  cap : CaptureEnv

/-- The cooldown-wait prologue of one `_automated_loop` iteration:
when the elapsed time is below the interval it records the next
scheduled capture time and sleeps (the sleep itself is stateless; with
no external stop the `break` inside it is unreachable). -/
def auto_wait (s : CaptureState) (e : AutoIterEnv) : CaptureState :=
  let elapsed := e.now - s.last_capture_time
  if elapsed < (s.auto_interval : ℚ) then
    { s with auto_next_capture_time := e.now + ((s.auto_interval : ℚ) - elapsed) }
  else s

/-- The body of one `_automated_loop` iteration: cooldown wait, then
`_do_capture` under `try`/`except` — a success increments
`_auto_captures_done`, a failure is logged and leaves it unchanged. -/
def automated_iteration (s : CaptureState) (e : AutoIterEnv) : CaptureState :=
  let sWait := auto_wait s e
  let out := do_capture sWait e.cap
  match out.1 with
  | .ok _ => { out.2 with auto_captures_done := out.2.auto_captures_done + 1 }
  | .error _ => out.2

/-- The epilogue after the `while` loop of `_automated_loop`. -/
def automated_loop_finish (s : CaptureState) : CaptureState :=
  { s with auto_running := false, mode := "manual" }

/-- Model of `CaptureManager._automated_loop` with no external stop request:
the loop consumes one `AutoIterEnv` per iteration; `none` means the
supplied iteration inputs were exhausted before the loop's own guard
terminated it (the run did not complete within the given inputs). -/
def automated_loop (s : CaptureState) (envs : List AutoIterEnv) :
    Option CaptureState :=
  if s.auto_running = true ∧ s.auto_captures_done < s.auto_max_captures then
    match envs with
    | [] => none
    | e :: rest => automated_loop (automated_iteration s e) rest
  else
    some (automated_loop_finish s)

/-! ### Camera manager (`CameraManager.reconfigure`)

Hardware interaction is recorded as an explicit trace of operations
issued to the Picamera2 handle.
-/

inductive HwOp where
  | hwStop
  | hwConfigure (w h : ℤ)
  | hwStart
deriving DecidableEq

structure CamState where
  initialized : Bool
  main_width : ℤ
  main_height : ℤ
deriving DecidableEq

def startedCamState : CamState :=
  { initialized := true, main_width := CAPTURE_WIDTH, main_height := CAPTURE_HEIGHT }

/-- Model of `CameraManager.reconfigure`: raises if the camera is not
initialized, returns immediately with an empty hardware trace when the
requested size equals the stored main-stream size, and otherwise stops,
reconfigures and restarts the hardware and updates the stored size. -/
def CamState.reconfigure (s : CamState) (width height : ℤ) :
    Except String (CamState × List HwOp) :=
  if s.initialized = false then
    .error "Camera is not initialized"
  else if width = s.main_width ∧ height = s.main_height then
    .ok (s, [])
  else
    .ok ({ s with main_width := width, main_height := height },
         [.hwStop, .hwConfigure width height, .hwStart])

/-! ### Live detection settings (`app/routes/live_detect.py`)

`LiveSettingsUpdate` carries Pydantic `Field` constraints
(`ge=0.01, le=1.0` on `confidence`); a request violating them is
rejected by FastAPI request validation before the handler runs, which
`validate_live_settings_update` models.  The handler's camera
reconfigure calls are recorded as a list of requested resolutions.
-/

structure LiveState where
  active : Bool
  confidence : ℚ
  resolution : String
  fps : ℚ
  object_count : ℤ
deriving DecidableEq

def initialLiveState : LiveState :=
  { active := false
    confidence := DEFAULT_CONFIDENCE
    resolution := DEFAULT_LIVE_RESOLUTION
    fps := 0
    object_count := 0 }

structure LiveSettingsUpdate where
  confidence : Option ℚ
  resolution : Option String
deriving DecidableEq

/-- Pydantic validation of the request body: `confidence` must satisfy
`0.01 ≤ c ≤ 1.0` when present; `resolution` is an unconstrained
optional string.  `none` models the 422 validation rejection. -/
def validate_live_settings_update (conf : Option ℚ) (res : Option String) :
    Option LiveSettingsUpdate :=
  match conf with
  | none => some { confidence := none, resolution := res }
  | some c =>
    if 0.01 ≤ c ∧ c ≤ 1.0 then
      some { confidence := some c, resolution := res }
    else
      none

inductive LiveUpdateResponse where
  | ok (updated_confidence : Option ℚ) (updated_resolution : Option String)
  | error (msg : String)
deriving DecidableEq

/-- Body of the `update_live_settings` handler.  It first applies the
confidence update (when present), then checks the resolution key: an
unknown key returns the error response with the state as updated so
far; a known key updates the stored resolution and, when the session is
active, requests a camera reconfigure to the preset's size. -/
def update_live_settings (s : LiveState) (body : LiveSettingsUpdate) :
    LiveUpdateResponse × LiveState × List (ℤ × ℤ) :=
  let confStep :
      LiveState × Option ℚ :=
    match body.confidence with
    | some c => ({ s with confidence := c }, some c)
    | none => (s, none)
  let s1 := confStep.1
  let updConf := confStep.2
  match body.resolution with
  | some r =>
    match RESOLUTION_PRESETS.lookup r with
    | none => (.error "Invalid resolution.", s1, [])
    | some wh =>
      (.ok updConf (some r), { s1 with resolution := r },
       if s1.active = true then [wh] else [])
  | none => (.ok updConf none, s1, [])

/-- The full `PUT /api/live/settings` call: request validation followed
by the handler; `.error ()` is the 422 response, on which the handler
never runs and the state is untouched. -/
def live_settings_endpoint (s : LiveState) (conf : Option ℚ) (res : Option String) :
    Except Unit (LiveUpdateResponse × LiveState × List (ℤ × ℤ)) :=
  match validate_live_settings_update conf res with
  | none => .error ()
  | some body => .ok (update_live_settings s body)

/-- The live-settings state after a `PUT /api/live/settings` call
(unchanged when the request is rejected by validation). -/
def live_settings_post_state (s : LiveState) (conf : Option ℚ) (res : Option String) :
    LiveState :=
  match live_settings_endpoint s conf res with
  | .error _ => s
  | .ok out => out.2.1

/-- Whether a `PUT /api/live/settings` call returned a success
response (neither a 422 rejection nor the handler's error payload). -/
def live_settings_call_succeeds (s : LiveState) (conf : Option ℚ) (res : Option String) :
    Bool :=
  match live_settings_endpoint s conf res with
  | .ok (.ok _ _, _, _) => true
  | _ => false

/-! ### Concrete sample environments (used by witness theorems) -/

def okDetectionDict : DetectionDict :=
  { object_count := 3, image_filename := "detection_1.jpg", duration_ms := 1200 }

def okEnv : CaptureEnv :=
  { capture_high_res := .ok "/dev/shm/brivet/capture_1.jpg"
    run_detection := fun _ _ _ => .ok okDetectionDict
    persist := fun _ _ _ => .ok (1, "2026-01-01T00:00:46+00:00")
    completion_time := 46 }

def okEnvAt (t : ℚ) : CaptureEnv := { okEnv with completion_time := t }

def camFailEnv : CaptureEnv :=
  { okEnv with capture_high_res := .error (.cameraError "Camera is not initialized") }

def detectFailEnv : CaptureEnv :=
  { okEnv with run_detection := fun p _ _ => .error (.detectError ("Could not read image: " ++ p)) }

def persistFailEnv : CaptureEnv :=
  { okEnv with persist := fun _ _ _ => .error (.persistError "database is locked") }

/-- The capture state right after a successful
`start_automated(45, 2)` from the initial state. -/
def startedState : CaptureState :=
  { initialCaptureState with
      mode := "automated"
      auto_interval := 45
      auto_max_captures := 2
      auto_captures_done := 0
      auto_running := true }

/-- A capture state with an automated run active. -/
def autoState : CaptureState :=
  { initialCaptureState with
      mode := "automated"
      auto_interval := 45
      auto_max_captures := 3
      auto_running := true }

/-- Iteration inputs for a demo automated run: one failing capture
followed by two successful ones. -/
def demoEnvs : List AutoIterEnv :=
  [{ now := 0, cap := camFailEnv },
   { now := 45, cap := okEnvAt 46 },
   { now := 91, cap := okEnvAt 92 }]

/-- The final state of the demo automated run. -/
def demoFinalState : CaptureState :=
  (automated_loop startedState demoEnvs).getD initialCaptureState

/-! ### Frame lemmas about `do_capture` -/

/-- `_do_capture` never touches the automated-run bookkeeping fields,
the mode, or the settings. -/
theorem do_capture_frame (s : CaptureState) (env : CaptureEnv) :
    (do_capture s env).2.auto_running = s.auto_running ∧
    (do_capture s env).2.auto_max_captures = s.auto_max_captures ∧
    (do_capture s env).2.auto_captures_done = s.auto_captures_done ∧
    (do_capture s env).2.mode = s.mode ∧
    (do_capture s env).2.confidence = s.confidence ∧
    (do_capture s env).2.slices = s.slices ∧
    (do_capture s env).2.auto_interval = s.auto_interval := by
  simp only [do_capture, do_capture_processing_state]
  split
  · simp
  · split
    · simp
    · split
      · simp
      · simp

/-- The cooldown-wait prologue changes only `auto_next_capture_time`. -/
theorem auto_wait_frame (s : CaptureState) (e : AutoIterEnv) :
    (auto_wait s e).auto_running = s.auto_running ∧
    (auto_wait s e).auto_max_captures = s.auto_max_captures ∧
    (auto_wait s e).auto_captures_done = s.auto_captures_done ∧
    (auto_wait s e).mode = s.mode := by
  simp only [auto_wait]
  split <;> simp

/-! ### Claim theorems -/

/-- C1: whenever the manager is not in automated-running mode and the
time elapsed since `_last_capture_time` is strictly below
`MIN_CAPTURE_INTERVAL`, `manual_capture` fails with a CooldownActive
error carrying the remaining seconds, and the whole state — in
particular `_last_capture_time` — is unchanged by the call. -/
theorem manual_capture_cooldown_blocks (s : CaptureState) (now : ℚ) (env : CaptureEnv)
    (hmode : ¬ (s.mode = "automated" ∧ s.auto_running = true))
    (hcool : now - s.last_capture_time < (MIN_CAPTURE_INTERVAL : ℚ)) :
    manual_capture s now env =
      (.error (.cooldownActive
        ((MIN_CAPTURE_INTERVAL : ℚ) - (now - s.last_capture_time))), s) := by
  unfold manual_capture
  rw [if_neg hmode, if_pos hcool]

/-- Witness for C1: from the initial state (last capture at time 0),
a manual capture at time 10 is rejected with 35 seconds remaining. -/
theorem manual_capture_cooldown_blocks_witness :
    ¬ (initialCaptureState.mode = "automated" ∧
        initialCaptureState.auto_running = true) ∧
    (10 : ℚ) - initialCaptureState.last_capture_time < (MIN_CAPTURE_INTERVAL : ℚ) ∧
    manual_capture initialCaptureState 10 okEnv =
      (.error (.cooldownActive
        ((MIN_CAPTURE_INTERVAL : ℚ) - ((10 : ℚ) - initialCaptureState.last_capture_time))),
       initialCaptureState) :=
  ⟨by decide, by norm_num [initialCaptureState, MIN_CAPTURE_INTERVAL],
   manual_capture_cooldown_blocks initialCaptureState 10 okEnv (by decide)
     (by norm_num [initialCaptureState, MIN_CAPTURE_INTERVAL])⟩

/-- C2: while an automated run is active (`_mode = "automated"` and
`_auto_running`), `manual_capture` fails with a ModeConflict error for
every current time — regardless of the cooldown — and performs no
capture: the state is returned unchanged. -/
theorem manual_capture_mode_conflict (s : CaptureState) (now : ℚ) (env : CaptureEnv)
    (hmode : s.mode = "automated") (hrun : s.auto_running = true) :
    manual_capture s now env = (.error .modeConflict, s) := by
  unfold manual_capture
  rw [if_pos ⟨hmode, hrun⟩]

/-- Witness for C2: with an automated run active, a manual capture at
time 1000 (cooldown long since elapsed) is still rejected. -/
theorem manual_capture_mode_conflict_witness :
    autoState.mode = "automated" ∧ autoState.auto_running = true ∧
    manual_capture autoState 1000 okEnv = (.error .modeConflict, autoState) :=
  ⟨rfl, rfl, manual_capture_mode_conflict autoState 1000 okEnv rfl rfl⟩

/-- C3: `start_automated(interval, max_captures)` fails with an
InvalidArgument error whenever `interval < MIN_CAPTURE_INTERVAL` or
`max_captures < 1`, and on every failing path (the two invalid-argument
paths and the AlreadyRunning path) the returned state is exactly the
input state, so no field is mutated. -/
theorem start_automated_validation (s : CaptureState) (interval max_captures : ℤ) :
    ((interval < MIN_CAPTURE_INTERVAL ∨ max_captures < 1) →
      ((start_automated s interval max_captures).1 =
          .error (.invalidArgument "Interval must be at least 45 seconds.") ∨
       (start_automated s interval max_captures).1 =
          .error (.invalidArgument "Maximum captures must be at least 1."))) ∧
    (∀ e : CapError, (start_automated s interval max_captures).1 = .error e →
      (start_automated s interval max_captures).2 = s) := by
  unfold start_automated
  split_ifs with h1 h2 h3 <;> simp_all

/-- Witness for C3: `start_automated(10, 0)` from the initial state is
rejected with the interval message and the state is unchanged. -/
theorem start_automated_validation_witness :
    ((10 : ℤ) < MIN_CAPTURE_INTERVAL ∨ (0 : ℤ) < 1) ∧
    ((start_automated initialCaptureState 10 0).1 =
        .error (.invalidArgument "Interval must be at least 45 seconds.") ∨
     (start_automated initialCaptureState 10 0).1 =
        .error (.invalidArgument "Maximum captures must be at least 1.")) ∧
    (start_automated initialCaptureState 10 0).2 = initialCaptureState :=
  ⟨by decide,
   (start_automated_validation initialCaptureState 10 0).1 (by decide),
   (start_automated_validation initialCaptureState 10 0).2
     (.invalidArgument "Interval must be at least 45 seconds.") (by rfl)⟩

/-- C5: the body of `_do_capture` runs under the processing flag
(`_is_processing` is set to true first), and the `finally` clause
resets the flag on every exit path — the success path and the paths
where the camera capture, the detection, or the database persist
fails — so the state after any `_do_capture` call has
`_is_processing = false` regardless of the collaborator outcomes. -/
theorem do_capture_processing_flag (s : CaptureState) (env : CaptureEnv) :
    (do_capture_processing_state s).is_processing = true ∧
    (do_capture s env).2.is_processing = false := by
  refine ⟨rfl, ?_⟩
  simp only [do_capture, do_capture_processing_state]
  split
  · simp
  · split
    · simp
    · split
      · simp
      · simp

/-- C6: `_do_capture` advances `_last_capture_time` to the completion
time exactly when the capture, detection and persistence steps all
succeed; on any failure the error propagates to the caller (as the
failed step's exception) and `_last_capture_time` keeps its previous
value. -/
theorem do_capture_advances_time_iff_success (s : CaptureState) (env : CaptureEnv) :
    (∀ r : CaptureResult, (do_capture s env).1 = .ok r →
        (do_capture s env).2.last_capture_time = env.completion_time) ∧
    (∀ e : CapError, (do_capture s env).1 = .error e →
        (do_capture s env).2.last_capture_time = s.last_capture_time ∧
        ∃ ex : StepExc, e = .stepFailed ex) ∧
    ((∃ r : CaptureResult, (do_capture s env).1 = .ok r) ↔
      (∃ p : String, env.capture_high_res = .ok p ∧
        ∃ d : DetectionDict, env.run_detection p s.confidence s.slices = .ok d ∧
          ∃ pr : ℤ × String, env.persist d s.confidence s.slices = .ok pr)) := by
  simp only [do_capture, do_capture_processing_state]
  split
  · rename_i e h
    simp_all
  · rename_i p h
    split
    · rename_i e h2
      simp_all
    · rename_i d h2
      split
      · rename_i e h3
        simp_all
      · rename_i pr h3
        simp_all

/-- Witness for C6: with all steps succeeding the completion time is
stored; with a failing persist step the error propagates and the last
capture time is untouched. -/
theorem do_capture_advances_time_iff_success_witness :
    ((do_capture initialCaptureState okEnv).1 =
        .ok { object_count := 3, image_filename := "detection_1.jpg",
              duration_ms := 1200, id := 1,
              timestamp := "2026-01-01T00:00:46+00:00" } →
      (do_capture initialCaptureState okEnv).2.last_capture_time =
        okEnv.completion_time) ∧
    ((do_capture initialCaptureState persistFailEnv).1 =
        .error (.stepFailed (.persistError "database is locked")) →
      (do_capture initialCaptureState persistFailEnv).2.last_capture_time =
        initialCaptureState.last_capture_time ∧
      ∃ ex : StepExc,
        (CapError.stepFailed (.persistError "database is locked")) = .stepFailed ex) :=
  ⟨(do_capture_advances_time_iff_success initialCaptureState okEnv).1 _,
   (do_capture_advances_time_iff_success initialCaptureState persistFailEnv).2.1 _⟩

/-- One automated-loop iteration preserves `auto_running`,
`auto_max_captures` and `mode`, and either increments
`auto_captures_done` by one (successful capture) or leaves it
unchanged (failed capture). -/
theorem automated_iteration_frame (s : CaptureState) (e : AutoIterEnv) :
    (automated_iteration s e).auto_running = s.auto_running ∧
    (automated_iteration s e).auto_max_captures = s.auto_max_captures ∧
    (automated_iteration s e).mode = s.mode ∧
    ((automated_iteration s e).auto_captures_done = s.auto_captures_done + 1 ∨
     (automated_iteration s e).auto_captures_done = s.auto_captures_done) := by
  have h1 := do_capture_frame (auto_wait s e) e.cap
  have h2 := auto_wait_frame s e
  simp only [automated_iteration]
  split
  · simp_all
  · simp_all

/-- Exiting the automated loop through its guard with the run still
active forces `auto_captures_done = auto_max_captures`, and the loop
epilogue resets the running flag and the mode. -/
theorem automated_loop_finish_spec (s : CaptureState)
    (hrun : s.auto_running = true)
    (hle : s.auto_captures_done ≤ s.auto_max_captures)
    (hng : ¬ (s.auto_running = true ∧ s.auto_captures_done < s.auto_max_captures)) :
    (automated_loop_finish s).auto_captures_done =
      (automated_loop_finish s).auto_max_captures ∧
    (automated_loop_finish s).auto_max_captures = s.auto_max_captures ∧
    (automated_loop_finish s).mode = "manual" ∧
    (automated_loop_finish s).auto_running = false := by
  push_neg at hng
  have hd : s.auto_captures_done = s.auto_max_captures := by
    have := hng hrun
    omega
  simp [automated_loop_finish, hd]

/-- Loop invariant: starting from any state with the run active and
`auto_captures_done ≤ auto_max_captures`, if the loop terminates
through its own guard then the final state counts exactly
`auto_max_captures` completed captures, with mode `"manual"` and the
running flag cleared. -/
theorem automated_loop_invariant (envs : List AutoIterEnv) :
    ∀ s s2 : CaptureState, s.auto_running = true →
      s.auto_captures_done ≤ s.auto_max_captures →
      automated_loop s envs = some s2 →
      s2.auto_captures_done = s2.auto_max_captures ∧
      s2.auto_max_captures = s.auto_max_captures ∧
      s2.mode = "manual" ∧ s2.auto_running = false := by
  induction envs with
  | nil =>
    intro s s2 hrun hle hloop
    simp only [automated_loop] at hloop
    by_cases hg : s.auto_running = true ∧ s.auto_captures_done < s.auto_max_captures
    · rw [if_pos hg] at hloop
      exact absurd hloop (by simp)
    · rw [if_neg hg] at hloop
      have hs2 : automated_loop_finish s = s2 := by
        exact Option.some.inj hloop
      rw [← hs2]
      exact automated_loop_finish_spec s hrun hle hg
  | cons e rest ih =>
    intro s s2 hrun hle hloop
    simp only [automated_loop] at hloop
    by_cases hg : s.auto_running = true ∧ s.auto_captures_done < s.auto_max_captures
    · rw [if_pos hg] at hloop
      have hframe := automated_iteration_frame s e
      have hrec := ih (automated_iteration s e) s2
        (by rw [hframe.1]; exact hrun)
        (by
          rw [hframe.2.1]
          rcases hframe.2.2.2 with h | h <;> omega)
        hloop
      exact ⟨hrec.1, by rw [hrec.2.1, hframe.2.1], hrec.2.2⟩
    · rw [if_neg hg] at hloop
      have hs2 : automated_loop_finish s = s2 := by
        exact Option.some.inj hloop
      rw [← hs2]
      exact automated_loop_finish_spec s hrun hle hg

/-- C4: for every automated run entered through a successful
`start_automated(interval, max_captures)` whose loop runs to
completion without an external stop (i.e. the loop exits through its
own guard), the final state has `_auto_captures_done` equal to
`_auto_max_captures` (which is the requested `max_captures`) and the
mode reset to manual with the running flag cleared; moreover a failed
capture inside an iteration does not increment `_auto_captures_done`
(and, by the loop's `try`/`except`, does not terminate the run — the
loop simply proceeds to its next iteration, as the recursion in
`automated_loop` shows). -/
theorem automated_run_completes (s s₁ s₂ : CaptureState)
    (interval max_captures : ℤ) (envs : List AutoIterEnv)
    (hstart : start_automated s interval max_captures = (.ok (), s₁))
    (hloop : automated_loop s₁ envs = some s₂) :
    (s₂.auto_captures_done = s₂.auto_max_captures ∧
     s₂.auto_max_captures = max_captures ∧
     s₂.mode = "manual" ∧ s₂.auto_running = false) ∧
    (∀ (s0 : CaptureState) (e : AutoIterEnv),
        (do_capture (auto_wait s0 e) e.cap).1.isOk = false →
        (automated_iteration s0 e).auto_captures_done = s0.auto_captures_done) := by
  constructor
  · unfold start_automated at hstart
    split_ifs at hstart with h1 h2 h3
    · exact absurd hstart (by simp)
    · exact absurd hstart (by simp)
    · exact absurd hstart (by simp)
    · have hs1 : s₁ =
          { s with
              mode := "automated"
              auto_interval := interval
              auto_max_captures := max_captures
              auto_captures_done := 0
              auto_running := true } := by
        have := congrArg Prod.snd hstart
        simpa using this.symm
      have hinv := automated_loop_invariant envs s₁ s₂
        (by rw [hs1]) (by rw [hs1]; show (0:ℤ) ≤ max_captures; omega) hloop
      refine ⟨hinv.1, ?_, hinv.2.2⟩
      rw [hinv.2.1, hs1]
  · intro s0 e hfail
    have h1 := do_capture_frame (auto_wait s0 e) e.cap
    have h2 := auto_wait_frame s0 e
    simp only [automated_iteration]
    split
    · rename_i r hr
      rw [hr] at hfail
      simp [Except.isOk, Except.toBool] at hfail
    · simp_all

/-- Witness for C4: a run started with `start_automated(45, 2)` whose
first capture fails and next two succeed completes with exactly 2
captures done, mode manual, running flag cleared. -/
theorem automated_run_completes_witness :
    start_automated initialCaptureState 45 2 = (.ok (), startedState) ∧
    automated_loop startedState demoEnvs = some demoFinalState ∧
    (demoFinalState.auto_captures_done = demoFinalState.auto_max_captures ∧
     demoFinalState.auto_max_captures = 2 ∧
     demoFinalState.mode = "manual" ∧ demoFinalState.auto_running = false) := by
  have hstart : start_automated initialCaptureState 45 2 = (.ok (), startedState) := by
    norm_num [start_automated, initialCaptureState, startedState, MIN_CAPTURE_INTERVAL]
  have hloop : automated_loop startedState demoEnvs = some demoFinalState := by
    norm_num [automated_loop, automated_iteration, auto_wait, do_capture,
      do_capture_processing_state, automated_loop_finish, startedState,
      initialCaptureState, demoEnvs, demoFinalState, camFailEnv, okEnvAt, okEnv,
      okDetectionDict, MIN_CAPTURE_INTERVAL, DEFAULT_CONFIDENCE, DEFAULT_SLICES]
  exact ⟨hstart, hloop,
    (automated_run_completes initialCaptureState startedState demoFinalState
      45 2 demoEnvs hstart hloop).1⟩

/-- C8: on a started camera, `reconfigure(w, h)` called twice in a row
issues no hardware operation on the second call: after any successful
`reconfigure(w, h)` the stored main resolution equals `(w, h)`, so the
second call returns with an empty hardware trace and the state
unchanged (idempotence). -/
theorem reconfigure_idempotent (s s1 : CamState) (w h : ℤ) (ops : List HwOp)
    (hinit : s.initialized = true)
    (hfirst : CamState.reconfigure s w h = .ok (s1, ops)) :
    CamState.reconfigure s1 w h = .ok (s1, []) := by
  unfold CamState.reconfigure at hfirst ⊢
  rw [if_neg (by simp [hinit])] at hfirst
  by_cases hsame : w = s.main_width ∧ h = s.main_height
  · rw [if_pos hsame] at hfirst
    simp only [Except.ok.injEq, Prod.mk.injEq] at hfirst
    obtain ⟨hs1, -⟩ := hfirst
    subst hs1
    rw [if_neg (by simp [hinit]), if_pos hsame]
  · rw [if_neg hsame] at hfirst
    simp only [Except.ok.injEq, Prod.mk.injEq] at hfirst
    obtain ⟨hs1, -⟩ := hfirst
    subst hs1
    rw [if_neg (by simp [hinit]), if_pos (by simp)]

/-- Witness for C8: reconfiguring a started camera (3280×2464) to
640×480 issues stop/configure/start once; repeating the call issues
nothing. -/
theorem reconfigure_idempotent_witness :
    startedCamState.initialized = true ∧
    CamState.reconfigure startedCamState 640 480 =
      .ok ({ initialized := true, main_width := 640, main_height := 480 },
           [.hwStop, .hwConfigure 640 480, .hwStart]) ∧
    CamState.reconfigure { initialized := true, main_width := 640, main_height := 480 }
      640 480 =
      .ok ({ initialized := true, main_width := 640, main_height := 480 }, []) :=
  ⟨rfl, by rfl,
   reconfigure_idempotent startedCamState
     { initialized := true, main_width := 640, main_height := 480 }
     640 480 [.hwStop, .hwConfigure 640 480, .hwStart] rfl (by rfl)⟩

/-- C9: the `CaptureManager` confidence setter stores its input
clamped to [0.01, 1.0] — any stored value lies in that interval, an
in-range input is stored unchanged, input 0 stores 0.01 and input 5
stores 1.0 — and the slices setter stores its input clamped to [1, 8]
— any stored value lies in [1, 8], an in-range input is stored
unchanged, input 0 stores 1 and input 20 stores 8. -/
theorem capture_settings_clamp (s : CaptureState) (v : ℚ) (n : ℤ) :
    (0.01 ≤ (set_confidence s v).confidence ∧ (set_confidence s v).confidence ≤ 1) ∧
    (0.01 ≤ v → v ≤ 1 → (set_confidence s v).confidence = v) ∧
    (1 ≤ (set_slices s n).slices ∧ (set_slices s n).slices ≤ 8) ∧
    (1 ≤ n → n ≤ 8 → (set_slices s n).slices = n) ∧
    (set_confidence s 0).confidence = 0.01 ∧
    (set_confidence s 5).confidence = 1 ∧
    (set_slices s 0).slices = 1 ∧
    (set_slices s 20).slices = 8 := by
  have h10 : (1.0 : ℚ) = 1 := by norm_num
  simp only [set_confidence, set_slices, h10]
  refine ⟨⟨le_max_left _ _, ?_⟩, ?_, ⟨le_max_left _ _, ?_⟩, ?_, ?_, ?_, ?_, ?_⟩
  · exact max_le (by norm_num) (min_le_left _ _)
  · intro h1 h2
    rw [min_eq_right h2, max_eq_right h1]
  · exact max_le (by norm_num) (min_le_left _ _)
  · intro h1 h2
    rw [min_eq_right h2, max_eq_right h1]
  · norm_num
  · norm_num
  · norm_num
  · norm_num

/-- Witness for C9: the in-range cases at confidence 0.5 and slices 3,
together with the concrete clamping cases. -/
theorem capture_settings_clamp_witness :
    (0.01 : ℚ) ≤ 0.5 ∧ (0.5 : ℚ) ≤ 1 ∧ (1 : ℤ) ≤ 3 ∧ (3 : ℤ) ≤ 8 ∧
    (set_confidence initialCaptureState 0.5).confidence = 0.5 ∧
    (set_slices initialCaptureState 3).slices = 3 ∧
    (set_confidence initialCaptureState 0).confidence = 0.01 ∧
    (set_confidence initialCaptureState 5).confidence = 1 ∧
    (set_slices initialCaptureState 0).slices = 1 ∧
    (set_slices initialCaptureState 20).slices = 8 := by
  have h := capture_settings_clamp initialCaptureState 0.5 3
  exact ⟨by norm_num, by norm_num, by norm_num, by norm_num,
    h.2.1 (by norm_num) (by norm_num),
    h.2.2.2.1 (by norm_num) (by norm_num),
    h.2.2.2.2.1, h.2.2.2.2.2.1, h.2.2.2.2.2.2.1, h.2.2.2.2.2.2.2⟩

/-- Counterexample to C7 as stated: a live-settings call with the
out-of-range confidence 5 is rejected by the request-body validation
(`Field(ge=0.01, le=1.0)`) before the handler runs, so the stored
confidence stays at its previous value 0.25 instead of becoming the
clamped value 1.0 that the claim predicts. -/
theorem live_confidence_clamp_counterexample :
    live_settings_endpoint initialLiveState (some 5) none = .error () ∧
    (live_settings_post_state initialLiveState (some 5) none).confidence = 0.25 ∧
    ¬ (live_settings_post_state initialLiveState (some 5) none).confidence =
        max 0.01 (min 1.0 (5 : ℚ)) := by
  refine ⟨?_, ?_, ?_⟩ <;>
    norm_num [live_settings_endpoint, live_settings_post_state,
      validate_live_settings_update, initialLiveState, DEFAULT_CONFIDENCE]

/-- C7 amended: for every live-settings call, an in-range confidence
(0.01 ≤ c ≤ 1.0) is stored exactly — which coincides with clamping on
the accepted range — while an out-of-range confidence is rejected by
request validation with the state (in particular the stored
confidence) unchanged; and a call whose resolution key is not in the
fixed preset set never succeeds and leaves the stored resolution key
unchanged. -/
theorem live_settings_update_spec (s : LiveState) (c : ℚ)
    (conf? : Option ℚ) (r? : Option String) (r : String) :
    ((0.01 ≤ c ∧ c ≤ 1.0) →
      (live_settings_post_state s (some c) r?).confidence = c) ∧
    (¬ (0.01 ≤ c ∧ c ≤ 1.0) →
      live_settings_endpoint s (some c) r? = .error () ∧
      live_settings_post_state s (some c) r? = s) ∧
    (RESOLUTION_PRESETS.lookup r = none →
      live_settings_call_succeeds s conf? (some r) = false ∧
      (live_settings_post_state s conf? (some r)).resolution = s.resolution) := by
  refine ⟨?_, ?_, ?_⟩
  · intro hc
    simp only [live_settings_post_state, live_settings_endpoint,
      validate_live_settings_update, if_pos hc, update_live_settings]
    cases r? with
    | none => simp
    | some rr =>
      cases hl : RESOLUTION_PRESETS.lookup rr with
      | none => simp [hl]
      | some wh => simp [hl]
  · intro hc
    simp only [live_settings_post_state, live_settings_endpoint,
      validate_live_settings_update, if_neg hc]
    exact ⟨trivial, trivial⟩
  · intro hr
    cases conf? with
    | none =>
      simp [live_settings_call_succeeds, live_settings_post_state,
        live_settings_endpoint, validate_live_settings_update,
        update_live_settings, hr]
    | some cc =>
      by_cases hcc : 0.01 ≤ cc ∧ cc ≤ 1.0
      · simp [live_settings_call_succeeds, live_settings_post_state,
          live_settings_endpoint, validate_live_settings_update,
          update_live_settings, if_pos hcc, hr]
      · simp [live_settings_call_succeeds, live_settings_post_state,
          live_settings_endpoint, validate_live_settings_update,
          update_live_settings, if_neg hcc, hr]

/-- Witness for the amended C7: confidence 0.5 is stored exactly;
confidence 3 is rejected with the state unchanged; an update to the
unknown key "800x600" does not succeed and leaves the stored
resolution unchanged. -/
theorem live_settings_update_spec_witness :
    (live_settings_post_state initialLiveState (some 0.5) none).confidence = 0.5 ∧
    (live_settings_endpoint initialLiveState (some 3) none = .error () ∧
     live_settings_post_state initialLiveState (some 3) none = initialLiveState) ∧
    (live_settings_call_succeeds initialLiveState none (some "800x600") = false ∧
     (live_settings_post_state initialLiveState none (some "800x600")).resolution =
       initialLiveState.resolution) :=
  ⟨(live_settings_update_spec initialLiveState 0.5 none none "x").1 (by norm_num),
   (live_settings_update_spec initialLiveState 3 none none "x").2.1 (by norm_num),
   (live_settings_update_spec initialLiveState 0.5 none none "800x600").2.2 (by rfl)⟩

/-- C10: the live-settings update is not atomic on error — for every
call with an in-range confidence and an unrecognized resolution key,
the handler stores the new confidence first and only then hits the
resolution check, so it returns the error response (requesting no
camera reconfigure) with the confidence already updated and the
resolution key unchanged. -/
theorem live_settings_update_nonatomic (s : LiveState) (c : ℚ) (r : String)
    (hc : 0.01 ≤ c ∧ c ≤ 1.0)
    (hr : RESOLUTION_PRESETS.lookup r = none) :
    live_settings_endpoint s (some c) (some r) =
      .ok (.error "Invalid resolution.", { s with confidence := c }, []) := by
  simp only [live_settings_endpoint, validate_live_settings_update, if_pos hc,
    update_live_settings, hr]

/-- Witness for C10: updating confidence to 0.9 together with the
unknown resolution key "800x600" yields the error response with the
confidence stored as 0.9 and the resolution untouched. -/
theorem live_settings_update_nonatomic_witness :
    ((0.01 : ℚ) ≤ 0.9 ∧ (0.9 : ℚ) ≤ 1.0) ∧
    RESOLUTION_PRESETS.lookup "800x600" = none ∧
    live_settings_endpoint initialLiveState (some 0.9) (some "800x600") =
      .ok (.error "Invalid resolution.",
           { initialLiveState with confidence := 0.9 }, []) :=
  ⟨by norm_num, by rfl,
   live_settings_update_nonatomic initialLiveState 0.9 "800x600"
     (by norm_num) (by rfl)⟩

end Brivet
